import Mathlib

set_option maxRecDepth 100000

/-!
Verification development for the ExtractBusinessInformation repository.

The Python sources are shallowly embedded: pure string manipulation and the
specific regular expressions the code uses are implemented directly as
executable Lean functions over `List Char` / `String`; the results of
BeautifulSoup document queries and of network fetches are inputs (oracle
fields of environment structures), since the fetch layer is out of scope.
Machine-independent Python semantics (str.strip, str.title, str.split,
truthiness of strings, list slicing) are reproduced exactly for the ASCII
inputs that appear in the claims.
-/

namespace Py

/-- The characters matched by the regex class `\s` (ASCII, as in the source inputs). -/
def isWsChar (c : Char) : Bool :=
  c = ' ' || c = '\t' || c = '\n' || c = '\r' || c = '\x0b' || c = '\x0c'

/-- The regex class `\w` (ASCII): letters, digits, underscore. -/
def wordChar (c : Char) : Bool :=
  c.isAlpha || c.isDigit || c = '_'

/-- `leadMatch p s` is true when `p` is an initial segment of `s`. -/
def leadMatch : List Char → List Char → Bool
  | [], _ => true
  | _ :: _, [] => false
  | p :: ps, c :: cs => p = c && leadMatch ps cs

/-- Substring containment over char lists (Python `sub in hay` for nonempty `sub`). -/
def hasSubList (hay nee : List Char) : Bool :=
  match hay with
  | [] => nee.isEmpty
  | _ :: t => leadMatch nee hay || hasSubList t nee

/-- Python `sub in s`. -/
def containsSub (s sub : String) : Bool :=
  hasSubList s.toList sub.toList

/-- Lower-case a whole string (ASCII). -/
def lowerStr (s : String) : String :=
  String.mk (s.toList.map Char.toLower)

/-- Python `str.strip()`: drop leading and trailing whitespace. -/
def stripChars (cs : List Char) : List Char :=
  ((cs.dropWhile isWsChar).reverse.dropWhile isWsChar).reverse

/-- Python `str.strip()` on strings. -/
def pyStrip (s : String) : String :=
  String.mk (stripChars s.toList)

/-- `re.sub(r'\s+', ' ', text)`: collapse every whitespace run to one space
(fuelled; every step consumes at least one character, so the length is
always enough fuel). -/
def collapseWsGo : Nat → List Char → List Char
  | 0, cs => cs
  | _ + 1, [] => []
  | n + 1, c :: cs =>
    if isWsChar c then ' ' :: collapseWsGo n (cs.dropWhile isWsChar)
    else c :: collapseWsGo n cs

/-- `re.sub(r'\s+', ' ', text)` on char lists. -/
def collapseWs (cs : List Char) : List Char :=
  collapseWsGo cs.length cs

/-- `clean_text` from `scraper.py`: collapse whitespace runs, then strip. -/
def clean_text (s : String) : String :=
  pyStrip (String.mk (collapseWs s.toList))

/-- Python `str.title()` (ASCII): a letter is upper-cased when the previous
character is not a letter, lower-cased otherwise. -/
def pyTitleGo : Bool → List Char → List Char
  | _, [] => []
  | prevAlpha, c :: cs =>
    if c.isAlpha then
      (if prevAlpha then c.toLower else c.toUpper) :: pyTitleGo true cs
    else c :: pyTitleGo false cs

/-- Python `str.title()` on strings. -/
def pyTitle (s : String) : String :=
  String.mk (pyTitleGo false s.toList)

/-- Python slice `s[:n]` on strings (by characters, as Python does). -/
def pyTake (n : Nat) (s : String) : String :=
  String.mk (s.toList.take n)

/-- Python `s.rstrip('/')`: remove every trailing slash. -/
def rstripSlash (s : String) : String :=
  String.mk ((s.toList.reverse.dropWhile fun c => c = '/').reverse)

/-- Python `s.endswith(sfx)`. -/
def endsWithStr (s sfx : String) : Bool :=
  leadMatch sfx.toList.reverse s.toList.reverse

/-- Python `s.startswith(pre)`. -/
def startsWithStr (s pre : String) : Bool :=
  leadMatch pre.toList s.toList

/-- The model of Python `list(set(xs))` for string lists.  Python enumerates a
set in an interpreter-determined but (within one process) fixed order that is a
function of the inserted elements; we model it as a fixed deduplication
function.  Every claim below depends only on membership, uniqueness and
functionality of this operation, never on the particular order. -/
def pySetList (xs : List String) : List String :=
  xs.dedup

/-- `re.split(r'\n+', text)` style splitting: split on maximal runs of
characters satisfying `p` (fuelled; fuel is always sufficient). -/
def splitRunsGo (p : Char → Bool) : Nat → List Char → List (List Char)
  | 0, cs => [cs]
  | n + 1, cs =>
    let first := cs.takeWhile fun c => !(p c)
    let rest := cs.dropWhile fun c => !(p c)
    match rest with
    | [] => [first]
    | _ :: t => first :: splitRunsGo p n (t.dropWhile p)

/-- `re.split(r'\n+', text)` from `extract_services_products`. -/
def splitNlRuns (s : String) : List String :=
  (splitRunsGo (fun c => c = '\n') (s.toList.length + 1) s.toList).map String.mk

/-- Python `s.split(sep)` for a single-character separator. -/
def pySplitChar (s : String) (sep : Char) : List String :=
  (s.toList.splitOn sep).map String.mk

/-- The section-URL derivation used by every LinkedIn section extractor
(e.g. linkedin_enhanced_scraper.py lines 38-42, authenticated scraper
lines 168-172): `url if url.endswith(sfx) else url.rstrip('/') + sfx`. -/
def section_url (linkedin_url sfx : String) : String :=
  if !(endsWithStr linkedin_url sfx) then rstripSlash linkedin_url ++ sfx
  else linkedin_url

/-- The characters matched by the regex class `[\w\.-]` of EMAIL_PATTERN. -/
def emailLocalChar (c : Char) : Bool :=
  wordChar c || c = '.' || c = '-'

/-- Backtracking tail of `EMAIL_PATTERN = [\w\.-]+@[\w\.-]+\.\w+`: given the
maximal `[\w\.-]` run `b` found after the `@`, the greedy `[\w\.-]+` gives
back just enough for `\.\w+`, i.e. the match uses the largest `k ≥ 1` with
`b[k] = '.'` and `b[k+1] ∈ \w`, consuming `b.take k`, the dot, and the maximal
word run after it; the remainder of `b` is left unconsumed. -/
def emailTailSplit (b : List Char) : Option (List Char × List Char) :=
  match ((List.range b.length).filter fun k =>
      decide (1 ≤ k) && (b.getD k ' ' = '.') && wordChar (b.getD (k + 1) ' ')).getLast? with
  | none => none
  | some k =>
    some (b.take k ++ '.' :: (b.drop (k + 1)).takeWhile wordChar,
          (b.drop (k + 1)).dropWhile wordChar)

/-- Try to match EMAIL_PATTERN at the head of `cs`; on success return the
matched characters and the unconsumed rest.  The first `[\w\.-]+` is greedy
and `@` is outside its class, so only the maximal initial run can precede the
`@`. -/
def matchEmailAt (cs : List Char) : Option (List Char × List Char) :=
  let a := cs.takeWhile emailLocalChar
  if a.isEmpty then none
  else
    match cs.drop a.length with
    | '@' :: r2 =>
      let b := r2.takeWhile emailLocalChar
      match emailTailSplit b with
      | none => none
      | some (consumed, bRest) => some (a ++ '@' :: consumed, bRest ++ r2.drop b.length)
    | _ => none

/-- `re.findall(EMAIL_PATTERN, text)`: scan left to right; on a match resume
after it, on a failure advance one character (fuelled by the text length,
which suffices because every step consumes at least one character). -/
def scanEmailsGo : Nat → List Char → List String
  | 0, _ => []
  | _ + 1, [] => []
  | n + 1, c :: cs =>
    match matchEmailAt (c :: cs) with
    | some (m, rest) => String.mk m :: scanEmailsGo n rest
    | none => scanEmailsGo n cs

/-- `re.findall(EMAIL_PATTERN, text)` from `scraper.py` line 74. -/
def findallEmails (s : String) : List String :=
  scanEmailsGo s.toList.length s.toList

/-- Case-insensitive `leadMatch`. -/
def leadMatchCI (kw rest : List Char) : Bool :=
  leadMatch (kw.map Char.toLower) (rest.map Char.toLower)

/-- `re.search(r'(\d+)\s*(kw1|kw2|...)', s, re.I)` returning group 1 (the
digits).  Leftmost match; `\d+` and `\s*` are greedy and no keyword starts
with a digit or whitespace, so no fruitful backtracking exists. -/
def searchNumKwGo (kws : List String) : List Char → Option String
  | [] => none
  | c :: cs =>
    if c.isDigit then
      let ds := (c :: cs).takeWhile Char.isDigit
      let rest := ((c :: cs).drop ds.length).dropWhile isWsChar
      if kws.any fun kw => leadMatchCI kw.toList rest then some (String.mk ds)
      else searchNumKwGo kws cs
    else searchNumKwGo kws cs

/-- `re.search(r'(\d+)\s*(kw...)', s, re.I)` on a string. -/
def searchNumKw (kws : List String) (s : String) : Option String :=
  searchNumKwGo kws s.toList

/-- One attempt of `re.search(r'name="loginCsrfParam"\s+value="([^"]+)"', _)`
at the head of `cs`: the two literals with a nonempty whitespace run between
them, then a nonempty captured run of non-quote characters closed by a
quote. -/
def csrfTokenAt (cs : List Char) : Option String :=
  let lit1 := "name=\"loginCsrfParam\"".toList
  if leadMatch lit1 cs then
    let r1 := cs.drop lit1.length
    let ws := r1.takeWhile isWsChar
    if ws.isEmpty then none
    else
      let r2 := r1.drop ws.length
      let lit2 := "value=\"".toList
      if leadMatch lit2 r2 then
        let r3 := r2.drop lit2.length
        let cap := r3.takeWhile fun c => c ≠ '"'
        if cap.isEmpty then none
        else
          match r3.drop cap.length with
          | '"' :: _ => some (String.mk cap)
          | _ => none
      else none
  else none

/-- `re.search` for the CSRF pattern: leftmost successful attempt. -/
def searchCsrf : List Char → Option String
  | [] => none
  | c :: cs =>
    match csrfTokenAt (c :: cs) with
    | some t => some t
    | none => searchCsrf cs

end Py

namespace Scraper

open Py

/-- `extract_emails` (scraper.py lines 72-75): findall then `list(set(...))`. -/
def extract_emails (text : String) : List String :=
  pySetList (findallEmails text)

/-- Method 5 of `extract_company_name` (lines 124-126): title-case the first
label of the hostname; `None` only when the split yields no parts (which
Python's `split` never does, but the code guards for it). -/
def domainCompany (domain_name : String) : Option String :=
  match pySplitChar domain_name '.' with
  | [] => none
  | p :: _ => some (pyTitle p)

/-- The candidate list of `extract_company_name` (lines 129-132): the five
sources in priority order, keeping those that are truthy (nonempty) and of
length strictly below 100. -/
def nameCandidates (header_heading first_h1_text logo_alt title dc : Option String) :
    List String :=
  ([header_heading, first_h1_text, logo_alt, title, dc].filterMap id).filter
    fun n => !(n == "") && decide (n.length < 100)

/-- Python `min(candidates, key=len)`: the first candidate of minimal length. -/
def minByLen (acc : String) : List String → String
  | [] => acc
  | c :: cs => if c.length < acc.length then minByLen c cs else minByLen acc cs

/-- `extract_company_name` (scraper.py lines 104-137), with the BeautifulSoup
query results (header heading, first h1, logo alt, title) as inputs. -/
def extract_company_name (header_heading first_h1_text logo_alt title : Option String)
    (domain_name : String) : String :=
  match nameCandidates header_heading first_h1_text logo_alt title (domainCompany domain_name) with
  | [] =>
    match domainCompany domain_name with
    | some d => if d = "" then "Unknown Company" else d
    | none => "Unknown Company"
  | c :: cs => minByLen c cs

def serviceKw : List String :=
  ["service", "solution", "offering", "expertise", "consulting", "support"]

def productKw : List String :=
  ["product", "tool", "software", "platform", "app", "application"]

/-- Word-boundary after a keyword occurrence: end of text or a non-word char. -/
def afterBoundary : List Char → Bool
  | [] => true
  | c :: _ => !(wordChar c)

/-- Scan for an occurrence of the word-character keyword `kw` flanked by `\b`
boundaries; `prev` is the character before the current position. -/
def wordHitGo (kw : List Char) : Option Char → List Char → Bool
  | _, [] => false
  | prev, c :: cs =>
    ((match prev with
      | none => true
      | some p => !(wordChar p)) &&
     leadMatch kw (c :: cs) && afterBoundary ((c :: cs).drop kw.length)) ||
    wordHitGo kw (some c) cs

/-- `re.search(r'\b kw \b', s, re.I)` for a keyword made of `\w` characters. -/
def containsWordCI (s kw : String) : Bool :=
  wordHitGo (kw.toList.map Char.toLower) none (s.toList.map Char.toLower)

/-- `re.search(r'\b(kw1|kw2|...)\b', s, re.I)` as used at lines 152 and 157. -/
def anyKwHit (s : String) (kws : List String) : Bool :=
  kws.any fun kw => containsWordCI s kw

/-- The per-paragraph acceptance test of `extract_services_products`:
keyword match and `20 < len < 500` (lines 152-158). -/
def qualifiesPara (kws : List String) (para : String) : Bool :=
  anyKwHit para kws && decide (20 < para.length) && decide (para.length < 500)

/-- The full, untruncated service candidate list of the structured pass:
paragraphs of the text (split on newline runs), cleaned, that qualify
(lines 146-154 without the line 162 truncation). -/
def service_candidates (text : String) : List String :=
  ((splitNlRuns text).map clean_text).filter (qualifiesPara serviceKw)

/-- The full, untruncated product candidate list (lines 146-159 without the
line 163 truncation). -/
def product_candidates (text : String) : List String :=
  ((splitNlRuns text).map clean_text).filter (qualifiesPara productKw)

/-- `extract_services_products` (scraper.py lines 139-165).  The `[:5]`
truncation of lines 162-163 is applied HERE, inside the pass, before the
caller merges in the streaming-parser pass. -/
def extract_services_products (text _company_name : String) : List String × List String :=
  ((service_candidates text).take 5, (product_candidates text).take 5)

/-- `xs.extend([s for s in extra if s not in xs])` (scraper.py lines 350-351):
the comprehension is evaluated against the base list before extending, so
duplicates inside `extra` are each appended when absent from `base`. -/
def extendMissing (base extra : List String) : List String :=
  base ++ extra.filter fun s => !(base.contains s)

/-- Results of the regular expressions of `scraper.py` that no claim depends
on (PHONE_PATTERN, ADDRESS_PATTERN, SOCIAL_MEDIA_PATTERNS and the
`extract_company_history` pattern families).  In the source they are pure
functions of their input text; they are threaded as oracle fields so the
record assembly keeps their data flow. -/
structure ReFuns where
  findallPhones : String → List String
  findallAddresses : String → List String
  searchPhone : String → Option String
  searchAddr : String → Option String
  socialOf : String → List (String × List String)
  historyOf : String → String → List (String × String)

/-- Everything `scrape_website` derives from the fetched bytes before the
extraction pipeline proper (lines 263-310): the trafilatura clean text, the
re-serialised soup, the BeautifulSoup query results, and the streaming
`MyHTMLParser` outputs.  Each field is a deterministic function of the
fetched content and the URL. -/
structure ScrapeInput where
  cleanContent : String
  soupStr : String
  metaDescription : Option String
  headerHeading : Option String
  firstH1 : Option String
  logoAlt : Option String
  title : Option String
  parserCompanyName : Option String
  parserContacts : List String
  parserServices : List String
  parserProducts : List String
  metaKeywords : Option String
  aboutText : Option String
  url : String
  domain : String
deriving DecidableEq

/-- `re.search(EMAIL_PATTERN, contact)` — the first (leftmost) email match. -/
def searchEmail (s : String) : Option String :=
  (findallEmails s).head?

/-- The parser-contact merge loop of `scrape_website` (lines 319-335): each
contact string contributes its first email, else phone, else address match. -/
def addParserContacts (rf : ReFuns) :
    List String → List String × List String × List String →
    List String × List String × List String
  | [], acc => acc
  | contact :: rest, (es, ps, ads) =>
    match searchEmail contact with
    | some e => addParserContacts rf rest (es ++ [e], ps, ads)
    | none =>
      match rf.searchPhone contact with
      | some p => addParserContacts rf rest (es, ps ++ [p], ads)
      | none =>
        match rf.searchAddr contact with
        | some a => addParserContacts rf rest (es, ps, ads ++ [a])
        | none => addParserContacts rf rest (es, ps, ads)

structure ContactInfo where
  emails : List String
  phones : List String
  addresses : List String
  social : List (String × List String)
deriving DecidableEq

structure BizRecord where
  company_name : String
  description : String
  contact : ContactInfo
  services : List String
  products : List String
  keywords : List String
  history : List (String × String)
  url : String
  domain : String
deriving DecidableEq

/-- Line 383: `description[:500] if description else ""`. -/
def descTruncate (d : String) : String :=
  if d = "" then "" else Py.pyTake 500 d

/-- The extraction pipeline of `scrape_website` (scraper.py lines 299-396),
from the content-derived inputs to the assembled record. -/
def scrape_assemble (rf : ReFuns) (inp : ScrapeInput) : BizRecord :=
  let company_name0 :=
    extract_company_name inp.headerHeading inp.firstH1 inp.logoAlt inp.title inp.domain
  let company_name :=
    if company_name0 = "Unknown Company" then
      match inp.parserCompanyName with
      | some p => if p = "" then company_name0 else p
      | none => company_name0
    else company_name0
  let meta_text := inp.metaDescription.getD ""
  let full_text := inp.cleanContent ++ " " ++ meta_text ++ " " ++ inp.soupStr
  let emails0 := extract_emails full_text
  let phones0 := pySetList (rf.findallPhones full_text)
  let addresses0 := pySetList (rf.findallAddresses full_text)
  let social := rf.socialOf full_text
  let tri := addParserContacts rf inp.parserContacts (emails0, phones0, addresses0)
  let emails := pySetList tri.1
  let phones := pySetList tri.2.1
  let addresses := pySetList tri.2.2
  let sp := extract_services_products inp.cleanContent company_name
  let services := (extendMissing sp.1 inp.parserServices).take 5
  let products := (extendMissing sp.2 inp.parserProducts).take 5
  let keywords :=
    match inp.metaKeywords with
    | some content => if content = "" then [] else (pySplitChar content ',').map pyStrip
    | none => []
  let description0 :=
    match inp.aboutText with
    | some t => clean_text t
    | none => ""
  let description1 := if description0 = "" then meta_text else description0
  { company_name := company_name
    description := descTruncate description1
    contact := { emails := emails, phones := phones, addresses := addresses, social := social }
    services := services
    products := products
    keywords := keywords
    history := rf.historyOf inp.cleanContent company_name
    url := inp.url
    domain := inp.domain }

end Scraper

namespace LinkedinAuth

open Py

/-- The mutable `auth_state` dict of `linkedin_auth.py`.  The `username` key
exists from module load onward and is never deleted (only set to `None`), so
the guard `'username' not in auth_state` is always false in reachable states;
`password = none` models the absence of the `'password'` key, which is the
key the code adds in `set_credentials` and deletes on clearing. -/
structure AuthState where
  logged_in : Bool
  username : Option String
  password : Option String
  error : Option String
deriving DecidableEq

/-- Outcome of one `requests` call: a value, or a raised exception message. -/
inductive HttpResult (α : Type) where
  | ok (a : α)
  | exn (msg : String)
deriving DecidableEq

structure LoginResponse where
  url : String
  text : String
deriving DecidableEq

/-- The two network interactions of `authenticate` (lines 89 and 110). -/
structure AuthEnv where
  loginPage : HttpResult String
  loginSubmit : HttpResult LoginResponse

/-- The failure-classification chain of lines 130-145, first match wins. -/
def classifyFailure (resp : LoginResponse) : String :=
  if containsSub resp.url "two-step-verification" then
    "LinkedIn requires two-factor authentication - this is not currently supported"
  else if containsSub resp.url "checkpoint" && containsSub resp.url "challenge" then
    "LinkedIn security checkpoint detected - please log in manually on LinkedIn.com first"
  else if containsSub (lowerStr resp.url) "captcha" || containsSub (lowerStr resp.text) "captcha" then
    "LinkedIn is requiring CAPTCHA verification - please log in manually on LinkedIn.com first"
  else if containsSub (lowerStr resp.url) "rate" || containsSub (lowerStr resp.url) "limit" then
    "LinkedIn rate limiting detected - please try again later"
  else
    "LinkedIn authentication failed - LinkedIn may be blocking automated logins for security"

/-- `authenticate` (linkedin_auth.py lines 72-162): the returned boolean and
the state after the attempt. -/
def authenticate (st : AuthState) (env : AuthEnv) : Bool × AuthState :=
  if st.password = none then
    (false, { st with error := some "No credentials provided" })
  else
    match env.loginPage with
    | .exn m =>
      (false, { st with error := some ("Authentication error: " ++ m),
                        logged_in := false, password := none })
    | .ok pageText =>
      match searchCsrf pageText.toList with
      | none =>
        -- Faithful to the source: the early return at lines 97-100 does NOT
        -- delete the stored password.
        (false, { st with error := some "LinkedIn login form could not be processed" })
      | some _ =>
        match env.loginSubmit with
        | .exn m =>
          (false, { st with error := some ("Authentication error: " ++ m),
                            logged_in := false, password := none })
        | .ok resp =>
          if startsWithStr resp.url "https://www.linkedin.com/feed/" ||
              containsSub resp.url "feed" then
            (true, { st with logged_in := true, password := none })
          else
            (false, { st with error := some (classifyFailure resp),
                              logged_in := false, password := none })

end LinkedinAuth

namespace Enhanced

open Py

/-- One candidate post container of `linkedin_enhanced_scraper.extract_posts`,
reduced to the query results the processing loop reads (lines 88-116). -/
structure PostContainer where
  textElText : Option String
  dateElText : Option String
  reactionsElText : Option String
deriving DecidableEq

/-- Lines 61-71: BOTH strategies' containers are collected unconditionally
(`extend` then `extend` with no emptiness guard) and concatenated. -/
def post_containers (m1 m2 : List PostContainer) : List PostContainer :=
  m1 ++ m2

structure Post where
  text : String
  date : Option String
  reactions : Option String
deriving DecidableEq

/-- Keyword stems of `(\d+)\s*(reactions?|likes?)` (line 112). -/
def postReactionKw : List String := ["reaction", "like"]

/-- Lines 90-95: a container is accepted when its text element exists and its
stripped text is nonempty. -/
def postText (c : PostContainer) : Option String :=
  match c.textElText with
  | none => none
  | some t =>
    let t := pyStrip t
    if t = "" then none else some t

/-- Lines 101-116: the post object, with the 250-character excerpt rule. -/
def mkPost (c : PostContainer) (t : String) : Post :=
  { text := pyTake 250 t ++ (if 250 < t.length then "..." else "")
    date := c.dateElText.map pyStrip
    reactions :=
      match c.reactionsElText with
      | none => none
      | some s => searchNumKw postReactionKw s }

/-- Lines 86-119: the container loop with the `unique_posts` dedup set. -/
def processPosts (seen : List String) : List PostContainer → List Post
  | [] => []
  | c :: cs =>
    match postText c with
    | none => processPosts seen cs
    | some t =>
      if seen.contains t then processPosts seen cs
      else mkPost c t :: processPosts (t :: seen) cs

/-- The emitted posts of `extract_posts` as a function of the two strategies'
container lists. -/
def extract_posts_items (m1 m2 : List PostContainer) : List Post :=
  processPosts [] (post_containers m1 m2)

/-- Lines 171-181 of `extract_job_openings`: strategy 2 is consulted only when
strategy 1 produced no element. -/
def job_elements {α : Type} (m1 m2 : List α) : List α :=
  if m1.isEmpty then m2 else m1

/-- Lines 284-293 of `extract_people`: elements from the leadership section
when one was found, else (when that list is empty) the generic leadership
title fallback. -/
def leader_elements {α : Type} (sectionEls : Option (List α)) (fallbackEls : List α) :
    List α :=
  let le :=
    match sectionEls with
    | some xs => xs
    | none => []
  if le.isEmpty then fallbackEls else le

structure PostsData where
  count : Nat
  posts : List Post
deriving DecidableEq

/-- Oracles for `extract_posts`: the trafilatura fetch and the two
strategies' soup queries over the fetched html. -/
structure PostsEnv where
  fetch : String → Option String
  m1OfHtml : String → List PostContainer
  m2OfHtml : String → List PostContainer

/-- `extract_posts` (lines 21-129): the `/company/` guard, the section-URL
derivation, the fetch, and the container pipeline.  The count element lookup
of lines 77-83 is dead for the final value: line 122 unconditionally
overwrites `count` with the number of emitted posts.  The second component
lists the URLs fetched. -/
def extract_posts (env : PostsEnv) (linkedin_url : String) :
    Option PostsData × List String :=
  if !(containsSub linkedin_url "/company/") then (none, [])
  else
    let posts_url := section_url linkedin_url "/posts"
    match env.fetch posts_url with
    | none => (none, [posts_url])
    | some html =>
      let posts := processPosts [] (post_containers (env.m1OfHtml html) (env.m2OfHtml html))
      (some { count := posts.length, posts := posts }, [posts_url])

/-- Oracles for the guard-level view of `extract_job_openings` / `extract_people`:
the fetch, and the per-page processing as a continuation. -/
structure SectionEnv (γ : Type) where
  fetch : String → Option String
  rest : String → γ

/-- `extract_job_openings` (lines 131-226) at guard granularity: the
`/company/` guard, URL derivation and fetch; the per-page processing (whose
cascade is `job_elements`) is the continuation. -/
def extract_job_openings {γ : Type} (env : SectionEnv γ) (linkedin_url : String) :
    Option γ × List String :=
  if !(containsSub linkedin_url "/company/") then (none, [])
  else
    let jobs_url := section_url linkedin_url "/jobs"
    match env.fetch jobs_url with
    | none => (none, [jobs_url])
    | some html => (some (env.rest html), [jobs_url])

/-- `extract_people` (lines 228-368) at guard granularity: the `/company/`
guard, URL derivation and fetch; the per-page processing (whose cascade is
`leader_elements`) is the continuation. -/
def extract_people {γ : Type} (env : SectionEnv γ) (linkedin_url : String) :
    Option γ × List String :=
  if !(containsSub linkedin_url "/company/") then (none, [])
  else
    let people_url := section_url linkedin_url "/people"
    match env.fetch people_url with
    | none => (none, [people_url])
    | some html => (some (env.rest html), [people_url])

end Enhanced

namespace AuthScraper

open Py

/-- `fetch_linkedin_page` outcome: the html (or `None` on failure) and the
authenticated flag. -/
structure FetchOut where
  html : Option String
  authenticated : Bool

/-- A Python value that is either an int or a str, as the `count` fields of
the authenticated scraper hold both. -/
inductive PyCount where
  | int (n : Int)
  | str (s : String)
deriving DecidableEq

structure AJob where
  title : String
  location : Option String
  date_posted : Option String
deriving DecidableEq

structure AJobsData where
  count : PyCount
  jobs : List AJob
  authentication_status : String
  /-- `none` models the `authentication_required` key being absent. -/
  authentication_required : Option Bool
deriving DecidableEq

structure APost where
  text : String
  date : Option String
  reactions : Option String
deriving DecidableEq

structure APostsData where
  count : PyCount
  posts : List APost
  authentication_status : String
  authentication_required : Option Bool
deriving DecidableEq

/-- Lines 197 / 339 / 526: a page is an authentication wall when
`'uas/login'` occurs in the lower-cased html or the soup finds a form whose
action matches a login pattern (the form query is an oracle input). -/
def isAuthWall (html : String) (hasLoginForm : Bool) : Bool :=
  containsSub (lowerStr html) "uas/login" || hasLoginForm

/-- Keyword stems of `(\d+)\s*(job|position|opening)` (line 354). -/
def jobsCountKw : List String := ["job", "position", "opening"]

/-- Keyword stems of `(\d+)\s*(posts?|updates?|articles?)` (line 211). -/
def postsCountKw : List String := ["post", "update", "article"]

/-- Lines 231-243 of `extract_company_posts`: strategy 1 unconditionally,
strategies 2 and 3 each only while the container list is still empty. -/
def apost_containers {α : Type} (m1 m2 m3 : List α) : List α :=
  let c1 := m1
  let c2 := if c1.isEmpty then c1 ++ m2 else c1
  if c2.isEmpty then c2 ++ m3 else c2

/-- Lines 371-397 of `extract_company_jobs`: same first-success cascade over
the three job-element strategies. -/
def ajob_elements {α : Type} (m1 m2 m3 : List α) : List α :=
  let c1 := m1
  let c2 := if c1.isEmpty then c1 ++ m2 else c1
  if c2.isEmpty then c2 ++ m3 else c2

/-- Lines 601-613 of `extract_company_people`: person cards come from the
leadership section when present, with a name-element fallback only when the
card query yields nothing. -/
def person_cards {α : Type} (sectionPresent : Bool) (m1 m2 : List α) : List α :=
  if sectionPresent then (if m1.isEmpty then m2 else m1) else []

/-- The placeholder item appended on the jobs authentication wall
(lines 344-348). -/
def jobsPlaceholder : AJob :=
  { title := "LinkedIn requires authentication to view job listings"
    location := some "Login required"
    date_posted := some "Recently" }

/-- The placeholder item appended on the posts authentication wall
(lines 202-205). -/
def postsPlaceholder : APost :=
  { text := "LinkedIn requires authentication to view detailed post content."
    date := some "Recently"
    reactions := none }

/-- Oracles of `extract_company_jobs`: `fetch_linkedin_page`, the login-form
soup query, the count-element soup query over the main page, and the
authenticated (non-wall) processing of lines 368-476 as a continuation (its
cascade is modelled by `ajob_elements`). -/
structure JobsEnv where
  fetch : String → FetchOut
  hasLoginForm : String → Bool
  countElem : String → Option String
  rest : String → Bool → AJobsData

/-- Lines 350-364: the best-effort count scrape on the jobs wall path: fetch
the main page, find the count element, search the count pattern; `none` when
any step fails. -/
def wallCountJobs (env : JobsEnv) (linkedin_url : String) : Option String :=
  match (env.fetch linkedin_url).html with
  | none => none
  | some mh =>
    match env.countElem mh with
    | none => none
    | some elemText => searchNumKw jobsCountKw elemText

/-- `extract_company_jobs` (lines 295-476): guard, URL derivation, fetch,
fetch-failure result, the authentication-wall degraded result of
lines 339-366, and the continuation otherwise.  The second component lists
the URLs fetched. -/
def extract_company_jobs (env : JobsEnv) (linkedin_url : String) :
    Option AJobsData × List String :=
  if !(containsSub linkedin_url "/company/") then (none, [])
  else
    let jobs_url := section_url linkedin_url "/jobs"
    let f := env.fetch jobs_url
    match f.html with
    | none =>
      (some { count := .str "Error fetching page", jobs := [],
              authentication_status := "Failed to authenticate",
              authentication_required := some true }, [jobs_url])
    | some html =>
      let auth_status := if f.authenticated then "Authenticated" else "Not authenticated"
      if isAuthWall html (env.hasLoginForm html) then
        let count : PyCount :=
          match wallCountJobs env linkedin_url with
          | some d => .str d
          | none => .str "Unknown (login required)"
        (some { count := count, jobs := [jobsPlaceholder],
                authentication_status := auth_status,
                authentication_required := some true }, [jobs_url, linkedin_url])
      else (some (env.rest html f.authenticated), [jobs_url])

/-- Oracles of `extract_company_posts`, shaped like `JobsEnv`. -/
structure PostsEnv where
  fetch : String → FetchOut
  hasLoginForm : String → Bool
  countElem : String → Option String
  rest : String → Bool → APostsData

/-- Lines 207-221: the best-effort count scrape on the posts wall path. -/
def wallCountPosts (env : PostsEnv) (linkedin_url : String) : Option String :=
  match (env.fetch linkedin_url).html with
  | none => none
  | some mh =>
    match env.countElem mh with
    | none => none
    | some elemText => searchNumKw postsCountKw elemText

/-- `extract_company_posts` (lines 153-293): guard, URL derivation, fetch,
fetch-failure result, the authentication-wall degraded result of
lines 197-223, and the continuation otherwise (its cascade is modelled by
`apost_containers`). -/
def extract_company_posts (env : PostsEnv) (linkedin_url : String) :
    Option APostsData × List String :=
  if !(containsSub linkedin_url "/company/") then (none, [])
  else
    let posts_url := section_url linkedin_url "/posts"
    let f := env.fetch posts_url
    match f.html with
    | none =>
      (some { count := .str "Error fetching page", posts := [],
              authentication_status := "Failed to authenticate",
              authentication_required := some true }, [posts_url])
    | some html =>
      let auth_status := if f.authenticated then "Authenticated" else "Not authenticated"
      if isAuthWall html (env.hasLoginForm html) then
        let count : PyCount :=
          match wallCountPosts env linkedin_url with
          | some d => .str d
          | none => .str "Unknown (login required)"
        (some { count := count, posts := [postsPlaceholder],
                authentication_status := auth_status,
                authentication_required := some true }, [posts_url, linkedin_url])
      else (some (env.rest html f.authenticated), [posts_url])

/-- Oracles for the guard-level view of `extract_company_people`. -/
structure PeopleEnv (γ : Type) where
  fetch : String → FetchOut
  rest : FetchOut → γ

/-- `extract_company_people` (lines 478-806) at guard granularity: the
`/company/` guard, URL derivation and fetch; everything after the fetch is
the continuation (its card cascade is modelled by `person_cards`). -/
def extract_company_people {γ : Type} (env : PeopleEnv γ) (linkedin_url : String) :
    Option γ × List String :=
  if !(containsSub linkedin_url "/company/") then (none, [])
  else
    let people_url := section_url linkedin_url "/people"
    (some (env.rest (env.fetch people_url)), [people_url])

end AuthScraper

namespace App

open Py

/-- The JSON value found at the `urls` key of the batch request body. -/
inductive UrlsVal where
  | arr (urls : List String)
  | notArray
deriving DecidableEq

/-- The parsed request body of `/api/batch`: the `urls` key (absent, an
array, or a non-array value) and the optional `mode`. -/
structure BatchBody where
  urls : Option UrlsVal
  mode : Option String
deriving DecidableEq

/-- The response of `api_batch_process`: an error with an HTTP status, or a
success envelope with the per-URL result entries. -/
inductive BatchResp (ρ : Type) where
  | err (status : Nat) (msg : String)
  | ok (results : List ρ) (total : Nat)
deriving DecidableEq

/-- URL normalization at lines 280-282 (also the contract of §6). -/
def normalizeUrl (url : String) : String :=
  if !(startsWithStr url "http://") && !(startsWithStr url "https://") then
    "https://" ++ url
  else url

def validModes : List String := ["find_linkedin", "linkedin_only", "direct"]

/-- The per-URL work of the batch loop (the mode dispatch with its network
calls, lines 285-335) as an oracle producing one result entry from the mode
and the normalized URL. -/
structure BatchEnv (ρ : Type) where
  process : String → String → ρ

/-- `api_batch_process` (app.py lines 250-357).  The second component lists
the URLs for which per-URL processing began; all three validations happen
before the loop.  An invalid mode aborts with 400 from inside the first
iteration. -/
def api_batch_process {ρ : Type} (env : BatchEnv ρ) (body : Option BatchBody) :
    BatchResp ρ × List String :=
  match body with
  | none => (.err 400 "URLs parameter is required as an array", [])
  | some b =>
    match b.urls with
    | none => (.err 400 "URLs parameter is required as an array", [])
    | some .notArray => (.err 400 "URLs must be provided as an array", [])
    | some (.arr urls) =>
      if 20 < urls.length then (.err 400 "Maximum 20 URLs allowed in batch mode", [])
      else
        let mode := b.mode.getD "find_linkedin"
        if validModes.contains mode then
          let normalized := urls.map normalizeUrl
          (.ok (normalized.map (env.process mode)) urls.length, normalized)
        else
          match urls with
          | [] => (.ok [] 0, [])
          | u :: _ =>
            (.err 400 ("Invalid mode: " ++ mode ++
              ". Use \"find_linkedin\", \"linkedin_only\", or \"direct\"."),
             [normalizeUrl u])

end App

/-! ## Helper lemmas -/

theorem minByLen_mem (acc : String) (l : List String) :
    Scraper.minByLen acc l ∈ acc :: l := by
  induction l generalizing acc with
  | nil => simp [Scraper.minByLen]
  | cons c cs ih =>
    simp only [Scraper.minByLen]
    by_cases h : c.length < acc.length
    · rw [if_pos h]
      rcases List.mem_cons.mp (ih c) with h1 | h1
      · rw [h1]; exact List.mem_cons_of_mem _ (List.mem_cons_self _ _)
      · exact List.mem_cons_of_mem _ (List.mem_cons_of_mem _ h1)
    · rw [if_neg h]
      rcases List.mem_cons.mp (ih acc) with h1 | h1
      · rw [h1]; exact List.mem_cons_self _ _
      · exact List.mem_cons_of_mem _ (List.mem_cons_of_mem _ h1)

theorem minByLen_le (acc : String) (l : List String) :
    ∀ c ∈ acc :: l, (Scraper.minByLen acc l).length ≤ c.length := by
  induction l generalizing acc with
  | nil =>
    intro c hc
    simp only [Scraper.minByLen]
    rcases List.mem_cons.mp hc with h1 | h1
    · rw [h1]
    · cases h1
  | cons b bs ih =>
    intro c hc
    simp only [Scraper.minByLen]
    by_cases h : b.length < acc.length
    · rw [if_pos h]
      rcases List.mem_cons.mp hc with h1 | h1
      · rw [h1]
        exact le_of_lt (lt_of_le_of_lt (ih b b (List.mem_cons_self _ _)) h)
      · exact ih b c h1
    · rw [if_neg h]
      rcases List.mem_cons.mp hc with h1 | h1
      · rw [h1]; exact ih acc acc (List.mem_cons_self _ _)
      · rcases List.mem_cons.mp h1 with h2 | h2
        · rw [h2]
          exact le_trans (ih acc acc (List.mem_cons_self _ _)) (Nat.le_of_not_lt h)
        · exact ih acc c (List.mem_cons_of_mem _ h2)

theorem leadMatch_append (p r : List Char) : Py.leadMatch p (p ++ r) = true := by
  induction p with
  | nil => rfl
  | cons c cs ih => simp [Py.leadMatch, ih]

theorem toList_append (a b : String) : (a ++ b).toList = a.toList ++ b.toList := by
  cases a; cases b; rfl

theorem endsWithStr_append (a sfx : String) : Py.endsWithStr (a ++ sfx) sfx = true := by
  show Py.leadMatch sfx.toList.reverse (a ++ sfx).toList.reverse = true
  rw [toList_append, List.reverse_append]
  exact leadMatch_append _ _

theorem pyTake_length_le (n : Nat) (s : String) : (Py.pyTake n s).length ≤ n := by
  show (s.toList.take n).length ≤ n
  exact List.length_take_le n s.toList

theorem descTruncate_length_le (d : String) : (Scraper.descTruncate d).length ≤ 500 := by
  unfold Scraper.descTruncate
  split
  · simp [String.length]
  · exact pyTake_length_le _ _

/-! ## Claim theorems -/

/-- Claim C1 failing input: credentials are stored and the fetched login page
carries no `loginCsrfParam` token, so `authenticate` takes the early return
of linkedin_auth.py lines 97-100. -/
def c1State : LinkedinAuth.AuthState :=
  { logged_in := false, username := some "user@example.com",
    password := some "hunter2", error := none }

def c1Env : LinkedinAuth.AuthEnv :=
  { loginPage := .ok "<html><body>please enable javascript</body></html>",
    loginSubmit := .ok { url := "https://www.linkedin.com/feed/", text := "" } }

/-- Claim C1 (code bug): when the anti-forgery token cannot be extracted from
the login page, `authenticate` returns false and sets the error, but the
stored password is NOT purged from the session state — the early return at
lines 97-100 lacks the `del auth_state['password']` performed on every other
exit path. -/
theorem C1_password_survives_csrf_failure :
    (LinkedinAuth.authenticate c1State c1Env).1 = false ∧
    (LinkedinAuth.authenticate c1State c1Env).2.password = some "hunter2" ∧
    (LinkedinAuth.authenticate c1State c1Env).2.error =
      some "LinkedIn login form could not be processed" := by
  refine ⟨?_, ?_, ?_⟩ <;> decide

/-- Claim C2 (amended): the authenticated posts and jobs extractors, the
non-authenticated jobs extractor, and the people-card cascades of both
variants short-circuit — when strategy 1 yields at least one container the
collected containers are exactly strategy 1's; the NON-authenticated posts
extractor however evaluates both strategies unconditionally and concatenates
their containers. -/
theorem C2_cascade_short_circuit :
    (∀ (α : Type) (m1 m2 m3 : List α), m1 ≠ [] → AuthScraper.apost_containers m1 m2 m3 = m1) ∧
    (∀ (α : Type) (m1 m2 m3 : List α), m1 ≠ [] → AuthScraper.ajob_elements m1 m2 m3 = m1) ∧
    (∀ (α : Type) (m1 m2 : List α), m1 ≠ [] → Enhanced.job_elements m1 m2 = m1) ∧
    (∀ (α : Type) (m1 m2 : List α), m1 ≠ [] → Enhanced.leader_elements (some m1) m2 = m1) ∧
    (∀ (α : Type) (m1 m2 : List α), m1 ≠ [] → AuthScraper.person_cards true m1 m2 = m1) ∧
    (∀ m1 m2, Enhanced.post_containers m1 m2 = m1 ++ m2) := by
  refine ⟨?_, ?_, ?_, ?_, ?_, fun m1 m2 => rfl⟩ <;>
    · intro α m1 m2
      first
      | (intro m3 h
         cases m1 with
         | nil => exact absurd rfl h
         | cons a t => simp [AuthScraper.apost_containers, AuthScraper.ajob_elements])
      | (intro h
         cases m1 with
         | nil => exact absurd rfl h
         | cons a t =>
           simp [Enhanced.job_elements, Enhanced.leader_elements, AuthScraper.person_cards])

/-- Concrete containers for the C2 counterexample. -/
def c2a : Enhanced.PostContainer := ⟨some "strategy one post text", none, none⟩

def c2b : Enhanced.PostContainer := ⟨some "strategy two post text", none, none⟩

/-- Claim C2 counterexample: in the non-authenticated posts extractor
(linkedin_enhanced_scraper.py lines 61-71), with strategy 1 yielding one
container, strategy 2's container is still collected and its item is
emitted. -/
theorem C2_counterexample :
    ([c2a] : List Enhanced.PostContainer) ≠ [] ∧
    Enhanced.post_containers [c2a] [c2b] = [c2a, c2b] ∧
    Enhanced.extract_posts_items [c2a] [c2b] =
      [⟨"strategy one post text", none, none⟩, ⟨"strategy two post text", none, none⟩] := by
  refine ⟨by decide, rfl, by decide⟩

/-- Claim C3 (amended): the cap of 5 is applied to the services/products
candidate lists already inside `extract_services_products` (scraper.py
lines 162-163), i.e. mid-pipeline, BEFORE the merge with the streaming-parser
pass — and again at final assembly; the assembled record nonetheless always
satisfies the bounding invariants: at most 5 services, at most 5 products,
and a description of at most 500 characters. -/
theorem C3_bounds_and_midpipeline_truncation :
    (∀ text cn, Scraper.extract_services_products text cn =
      ((Scraper.service_candidates text).take 5, (Scraper.product_candidates text).take 5)) ∧
    (∀ (rf : Scraper.ReFuns) (inp : Scraper.ScrapeInput),
      (Scraper.scrape_assemble rf inp).services.length ≤ 5 ∧
      (Scraper.scrape_assemble rf inp).products.length ≤ 5 ∧
      (Scraper.scrape_assemble rf inp).description.length ≤ 500) := by
  refine ⟨fun text cn => rfl, fun rf inp => ⟨?_, ?_, ?_⟩⟩
  · exact List.length_take_le _ _
  · exact List.length_take_le _ _
  · exact descTruncate_length_le _

/-- Claim C3 counterexample input: six qualifying service paragraphs. -/
def c3text : String :=
  "we provide fine service alpha today\nwe provide fine service beta today\nwe provide fine service gamma today\nwe provide fine service delta today\nwe provide fine service epsilon today\nwe provide fine service zeta today"

/-- Claim C3 counterexample: on a text with six qualifying service
paragraphs, the structured pass hands the merge step a list already truncated
to 5 — not the full candidate set, contradicting "truncation happens only at
final assembly, never mid-pipeline". -/
theorem C3_counterexample :
    (Scraper.service_candidates c3text).length = 6 ∧
    ((Scraper.extract_services_products c3text "Acme").1).length = 5 ∧
    (Scraper.extract_services_products c3text "Acme").1 ≠ Scraper.service_candidates c3text := by
  have h6 : (Scraper.service_candidates c3text).length = 6 := rfl
  have h5 : ((Scraper.extract_services_products c3text "Acme").1).length = 5 := rfl
  refine ⟨h6, h5, fun heq => ?_⟩
  rw [heq, h6] at h5
  exact absurd h5 (by decide)

/-- Trivial oracle functions for the C4 counterexample (phones, addresses,
social and history patterns find nothing on this input). -/
def rf0 : Scraper.ReFuns :=
  ⟨fun _ => [], fun _ => [], fun _ => none, fun _ => none, fun _ => [], fun _ _ => []⟩

/-- Claim C4 counterexample input: two emails differing only in case, and a
duplicated qualifying service paragraph. -/
def c4inp : Scraper.ScrapeInput :=
  { cleanContent := "mail Foo@Bar.com or foo@bar.com\nwe offer honest service here\nwe offer honest service here"
    soupStr := "", metaDescription := none, headerHeading := none, firstH1 := none,
    logoAlt := none, title := none, parserCompanyName := none, parserContacts := [],
    parserServices := [], parserProducts := [], metaKeywords := none, aboutText := none,
    url := "https://ex.com", domain := "ex.com" }

/-- Claim C4 counterexample: deduplication of emails is exact-string only —
`Foo@Bar.com` and `foo@bar.com` both survive `list(set(...))` although they
are equal after case normalization; and the assembled services list holds an
exact-string duplicate (both copies of a repeated paragraph from the single
structured pass). -/
theorem C4_counterexample :
    (Scraper.scrape_assemble rf0 c4inp).contact.emails = ["Foo@Bar.com", "foo@bar.com"] ∧
    Py.lowerStr "Foo@Bar.com" = Py.lowerStr "foo@bar.com" ∧
    ("Foo@Bar.com" : String) ≠ "foo@bar.com" ∧
    (Scraper.scrape_assemble rf0 c4inp).services =
      ["we offer honest service here", "we offer honest service here"] := by
  exact ⟨rfl, rfl, by decide, rfl⟩

/-- Claim C4 (amended): deduplication of the assembled contact collections is
exact-string (case-sensitive), not case-insensitive: the emails, phones and
addresses lists of every assembled record contain no two identical strings,
but strings differing only in case may coexist, and the services list may
hold exact duplicates coming from a single pass. -/
theorem C4_emails_exact_dedup (rf : Scraper.ReFuns) (inp : Scraper.ScrapeInput) :
    (Scraper.scrape_assemble rf inp).contact.emails.Nodup ∧
    (Scraper.scrape_assemble rf inp).contact.phones.Nodup ∧
    (Scraper.scrape_assemble rf inp).contact.addresses.Nodup := by
  exact ⟨List.nodup_dedup _, List.nodup_dedup _, List.nodup_dedup _⟩

/-- Claim C5 counterexample input: one hundred letters `a`. -/
def hundredA : String := String.mk (List.replicate 100 'a')

/-- Claim C5 counterexample: a nonempty candidate of length exactly 100 is
not "longer than 100 characters", so under the claim it survives and, being
the only candidate (the domain fallback is empty here), is returned; the code
requires `len < 100`, discards it, and returns "Unknown Company". -/
theorem C5_counterexample :
    hundredA.length = 100 ∧ hundredA ≠ "" ∧
    Scraper.extract_company_name (some hundredA) none none none "" = "Unknown Company" ∧
    Scraper.extract_company_name (some hundredA) none none none "" ≠ hundredA := by
  refine ⟨rfl, by decide, rfl, by decide⟩

/-- Claim C5 (amended): the resolver keeps only the nonempty candidates of
length strictly below 100 (a candidate of length exactly 100 is discarded
too); among the survivors it returns one of minimal length; when no candidate
survives it returns the domain-derived fallback, or "Unknown Company" when
that is empty or missing; on the spec's example it returns "Acme". -/
theorem C5_company_name_resolver :
    (∀ hh h1 la t dn,
      (Scraper.nameCandidates hh h1 la t (Scraper.domainCompany dn) ≠ [] →
        Scraper.extract_company_name hh h1 la t dn ∈
          Scraper.nameCandidates hh h1 la t (Scraper.domainCompany dn) ∧
        ∀ c ∈ Scraper.nameCandidates hh h1 la t (Scraper.domainCompany dn),
          (Scraper.extract_company_name hh h1 la t dn).length ≤ c.length) ∧
      (Scraper.nameCandidates hh h1 la t (Scraper.domainCompany dn) = [] →
        Scraper.extract_company_name hh h1 la t dn =
          (match Scraper.domainCompany dn with
           | some d => if d = "" then "Unknown Company" else d
           | none => "Unknown Company"))) ∧
    Scraper.extract_company_name (some "Acme Corporation International") (some "Acme")
      none none "acme.com" = "Acme" := by
  refine ⟨fun hh h1 la t dn => ⟨?_, ?_⟩, rfl⟩
  · intro hne
    unfold Scraper.extract_company_name
    cases hs : Scraper.nameCandidates hh h1 la t (Scraper.domainCompany dn) with
    | nil => exact absurd hs hne
    | cons c cs => exact ⟨minByLen_mem c cs, minByLen_le c cs⟩
  · intro hs
    unfold Scraper.extract_company_name
    rw [hs]

/-- Witness for C5: on the spec's own example the survivor list is nonempty
and the resolver's result is one of the survivors. -/
theorem C5_company_name_resolver_witness :
    Scraper.nameCandidates (some "Acme Corporation International") (some "Acme") none none
        (Scraper.domainCompany "acme.com") ≠ [] ∧
    Scraper.extract_company_name (some "Acme Corporation International") (some "Acme")
        none none "acme.com" ∈
      Scraper.nameCandidates (some "Acme Corporation International") (some "Acme") none none
        (Scraper.domainCompany "acme.com") := by
  have h := (C5_company_name_resolver.1 (some "Acme Corporation International") (some "Acme")
    none none "acme.com").1 (by decide)
  exact ⟨by decide, h.1⟩

/-- Trivial oracle functions for the C8 witness. -/
def rf8 : Scraper.ReFuns :=
  ⟨fun _ => [], fun _ => [], fun _ => none, fun _ => none, fun _ => [], fun _ _ => []⟩

/-- A concrete input for the C8 witness. -/
def c8inp : Scraper.ScrapeInput :=
  { cleanContent := "hello there", soupStr := "", metaDescription := none,
    headerHeading := none, firstH1 := none, logoAlt := none, title := none,
    parserCompanyName := none, parserContacts := [], parserServices := [],
    parserProducts := [], metaKeywords := none, aboutText := none,
    url := "https://e.com", domain := "e.com" }

/-- Claim C8 (confirmed): the extraction pipeline is deterministic — equal
content-derived inputs produce byte-identical records, and the record depends
on nothing beyond those inputs and the (per-process fixed) pattern functions:
two oracle sets that agree pointwise give identical records, so the
`list(set(...))` orderings, modelled as a fixed per-process enumeration, are
reproduced identically on every call with identical input. -/
theorem C8_deterministic :
    (∀ (rf : Scraper.ReFuns) (inp inp2 : Scraper.ScrapeInput), inp = inp2 →
      Scraper.scrape_assemble rf inp = Scraper.scrape_assemble rf inp2) ∧
    (∀ (rf rf2 : Scraper.ReFuns) (inp : Scraper.ScrapeInput),
      rf.findallPhones = rf2.findallPhones → rf.findallAddresses = rf2.findallAddresses →
      rf.searchPhone = rf2.searchPhone → rf.searchAddr = rf2.searchAddr →
      rf.socialOf = rf2.socialOf → rf.historyOf = rf2.historyOf →
      Scraper.scrape_assemble rf inp = Scraper.scrape_assemble rf2 inp) := by
  constructor
  · intro rf inp inp2 h
    rw [h]
  · intro rf rf2 inp h1 h2 h3 h4 h5 h6
    cases rf
    cases rf2
    simp only at h1 h2 h3 h4 h5 h6
    subst h1 h2 h3 h4 h5 h6
    rfl

/-- Witness for C8 at a concrete input. -/
theorem C8_deterministic_witness :
    c8inp = c8inp ∧ Scraper.scrape_assemble rf8 c8inp = Scraper.scrape_assemble rf8 c8inp :=
  ⟨rfl, C8_deterministic.1 rf8 c8inp c8inp rfl⟩

/-- Claim C6 (confirmed): whenever a fetched section page is detected as an
authentication wall, the jobs and posts extractors return a degraded result:
`authentication_required = true`, exactly the one placeholder item, and a
count that is the digits scraped from the main page via the count patterns
when the scrape succeeds, else the literal "Unknown (login required)". -/
theorem C6_wall_degraded (jenv : AuthScraper.JobsEnv) (penv : AuthScraper.PostsEnv)
    (url jhtml phtml : String)
    (hc : Py.containsSub url "/company/" = true)
    (hjf : (jenv.fetch (Py.section_url url "/jobs")).html = some jhtml)
    (hjw : AuthScraper.isAuthWall jhtml (jenv.hasLoginForm jhtml) = true)
    (hpf : (penv.fetch (Py.section_url url "/posts")).html = some phtml)
    (hpw : AuthScraper.isAuthWall phtml (penv.hasLoginForm phtml) = true) :
    AuthScraper.extract_company_jobs jenv url =
      (some { count :=
                match AuthScraper.wallCountJobs jenv url with
                | some d => .str d
                | none => .str "Unknown (login required)"
              jobs := [AuthScraper.jobsPlaceholder]
              authentication_status :=
                if (jenv.fetch (Py.section_url url "/jobs")).authenticated then "Authenticated"
                else "Not authenticated"
              authentication_required := some true },
       [Py.section_url url "/jobs", url]) ∧
    AuthScraper.extract_company_posts penv url =
      (some { count :=
                match AuthScraper.wallCountPosts penv url with
                | some d => .str d
                | none => .str "Unknown (login required)"
              posts := [AuthScraper.postsPlaceholder]
              authentication_status :=
                if (penv.fetch (Py.section_url url "/posts")).authenticated then "Authenticated"
                else "Not authenticated"
              authentication_required := some true },
       [Py.section_url url "/posts", url]) := by
  constructor
  · simp only [AuthScraper.extract_company_jobs, hc, Bool.not_true, Bool.false_eq_true,
      if_false, hjf, hjw, if_true]
  · simp only [AuthScraper.extract_company_posts, hc, Bool.not_true, Bool.false_eq_true,
      if_false, hpf, hpw, if_true]

/-- Concrete jobs environment for the C6 witness: every fetch lands on a page
carrying the login marker; the main-page count element reads "12 jobs". -/
def c6jenv : AuthScraper.JobsEnv :=
  { fetch := fun _ => { html := some "redirect uas/login", authenticated := false }
    hasLoginForm := fun _ => false
    countElem := fun _ => some "12 jobs at acme"
    rest := fun _ _ =>
      { count := .int 0, jobs := [], authentication_status := "",
        authentication_required := none } }

/-- Concrete posts environment for the C6 witness. -/
def c6penv : AuthScraper.PostsEnv :=
  { fetch := fun _ => { html := some "redirect uas/login", authenticated := false }
    hasLoginForm := fun _ => false
    countElem := fun _ => some "3 posts this month"
    rest := fun _ _ =>
      { count := .int 0, posts := [], authentication_status := "",
        authentication_required := none } }

/-- Witness for C6 at a concrete walled page. -/
theorem C6_wall_degraded_witness :
    Py.containsSub "https://www.linkedin.com/company/acme" "/company/" = true ∧
    AuthScraper.wallCountJobs c6jenv "https://www.linkedin.com/company/acme" = some "12" ∧
    AuthScraper.extract_company_jobs c6jenv "https://www.linkedin.com/company/acme" =
      (some { count := .str "12", jobs := [AuthScraper.jobsPlaceholder],
              authentication_status := "Not authenticated",
              authentication_required := some true },
       [Py.section_url "https://www.linkedin.com/company/acme" "/jobs",
        "https://www.linkedin.com/company/acme"]) := by
  refine ⟨rfl, rfl, ?_⟩
  have h := (C6_wall_degraded c6jenv c6penv "https://www.linkedin.com/company/acme"
    "redirect uas/login" "redirect uas/login" rfl rfl rfl rfl rfl).1
  rw [h]
  rfl

/-- Claim C7 (confirmed): the batch endpoint rejects an over-cap URL list and
a non-array `urls` value with a 400 error before the per-URL loop runs; no
URL is processed. -/
theorem C7_batch_validation (ρ : Type) (env : App.BatchEnv ρ) (b : App.BatchBody)
    (urls : List String) :
    (b.urls = some (App.UrlsVal.arr urls) → 20 < urls.length →
      App.api_batch_process env (some b) =
        (App.BatchResp.err 400 "Maximum 20 URLs allowed in batch mode", [])) ∧
    (b.urls = some App.UrlsVal.notArray →
      App.api_batch_process env (some b) =
        (App.BatchResp.err 400 "URLs must be provided as an array", [])) := by
  constructor
  · intro hu hlen
    simp only [App.api_batch_process, hu]
    rw [if_pos hlen]
  · intro hu
    simp only [App.api_batch_process, hu]

/-- Witness for C7: a batch of 21 URLs is rejected with the cap error and an
empty processed-URL trace. -/
theorem C7_batch_validation_witness :
    20 < (List.replicate 21 "example.com").length ∧
    App.api_batch_process (⟨fun _ _ => ()⟩ : App.BatchEnv Unit)
        (some ⟨some (App.UrlsVal.arr (List.replicate 21 "example.com")), none⟩) =
      (App.BatchResp.err 400 "Maximum 20 URLs allowed in batch mode", []) := by
  refine ⟨by decide, ?_⟩
  exact (C7_batch_validation Unit ⟨fun _ _ => ()⟩
    ⟨some (App.UrlsVal.arr (List.replicate 21 "example.com")), none⟩
    (List.replicate 21 "example.com")).1 rfl (by decide)

/-- Claim C9 counterexample: a URL that already names the posts section but
carries a trailing slash does NOT equal the derived URL — the suffix is
appended a second time, because `endswith` is checked before the slash is
stripped. -/
theorem C9_counterexample :
    Py.section_url "https://www.linkedin.com/company/acme/posts/" "/posts" =
      "https://www.linkedin.com/company/acme/posts/posts" ∧
    Py.section_url "https://www.linkedin.com/company/acme/posts/" "/posts" ≠
      "https://www.linkedin.com/company/acme/posts/" := by
  exact ⟨rfl, by decide⟩

/-- Claim C9 (amended): the derived section URL equals the input exactly when
the input literally ends with the suffix; otherwise it is the input with ALL
trailing slashes stripped plus the suffix — so a URL ending in the suffix
plus a trailing slash gets the suffix appended a second time.  Derived URLs
always end with the suffix, and the derivation is idempotent. -/
theorem C9_section_url_rule :
    (∀ url sfx, Py.endsWithStr url sfx = true → Py.section_url url sfx = url) ∧
    (∀ url sfx, Py.endsWithStr url sfx = false →
      Py.section_url url sfx = Py.rstripSlash url ++ sfx) ∧
    (∀ url sfx, Py.endsWithStr (Py.section_url url sfx) sfx = true) ∧
    (∀ url sfx, Py.section_url (Py.section_url url sfx) sfx = Py.section_url url sfx) := by
  have h1 : ∀ url sfx, Py.endsWithStr url sfx = true → Py.section_url url sfx = url := by
    intro url sfx h
    simp [Py.section_url, h]
  have h2 : ∀ url sfx, Py.endsWithStr url sfx = false →
      Py.section_url url sfx = Py.rstripSlash url ++ sfx := by
    intro url sfx h
    simp [Py.section_url, h]
  have h3 : ∀ url sfx, Py.endsWithStr (Py.section_url url sfx) sfx = true := by
    intro url sfx
    cases h : Py.endsWithStr url sfx with
    | true => rw [h1 url sfx h]; exact h
    | false => rw [h2 url sfx h]; exact endsWithStr_append _ _
  exact ⟨h1, h2, h3, fun url sfx => h1 _ _ (h3 url sfx)⟩

/-- Witness for C9 on a concrete profile URL without the suffix. -/
theorem C9_section_url_rule_witness :
    Py.endsWithStr "https://www.linkedin.com/company/acme" "/posts" = false ∧
    Py.section_url "https://www.linkedin.com/company/acme" "/posts" =
      Py.rstripSlash "https://www.linkedin.com/company/acme" ++ "/posts" := by
  exact ⟨rfl, C9_section_url_rule.2.1 _ _ rfl⟩

/-- Claim C10 (confirmed): every section extractor, in both variants, returns
`None`, fetching nothing, when the URL lacks the `/company/` marker. -/
theorem C10_company_guard (url : String) (h : Py.containsSub url "/company/" = false) :
    (∀ env : Enhanced.PostsEnv, Enhanced.extract_posts env url = (none, [])) ∧
    (∀ (γ : Type) (env : Enhanced.SectionEnv γ),
      Enhanced.extract_job_openings env url = (none, [])) ∧
    (∀ (γ : Type) (env : Enhanced.SectionEnv γ),
      Enhanced.extract_people env url = (none, [])) ∧
    (∀ env : AuthScraper.PostsEnv, AuthScraper.extract_company_posts env url = (none, [])) ∧
    (∀ env : AuthScraper.JobsEnv, AuthScraper.extract_company_jobs env url = (none, [])) ∧
    (∀ (γ : Type) (env : AuthScraper.PeopleEnv γ),
      AuthScraper.extract_company_people env url = (none, [])) := by
  refine ⟨fun env => ?_, fun γ env => ?_, fun γ env => ?_, fun env => ?_, fun env => ?_,
    fun γ env => ?_⟩ <;>
    simp [Enhanced.extract_posts, Enhanced.extract_job_openings, Enhanced.extract_people,
      AuthScraper.extract_company_posts, AuthScraper.extract_company_jobs,
      AuthScraper.extract_company_people, h]

/-- Witness for C10 at a non-company URL. -/
theorem C10_company_guard_witness :
    Py.containsSub "https://example.com/about" "/company/" = false ∧
    Enhanced.extract_posts ⟨fun _ => none, fun _ => [], fun _ => []⟩
      "https://example.com/about" = (none, []) := by
  refine ⟨rfl, ?_⟩
  exact (C10_company_guard "https://example.com/about" rfl).1 _

/-- Witness for C2: the authenticated posts cascade at concrete nonempty
strategy-1 containers. -/
theorem C2_cascade_short_circuit_witness :
    ([0] : List Nat) ≠ [] ∧ AuthScraper.apost_containers [0] [1] [2] = [0] :=
  ⟨by decide, C2_cascade_short_circuit.1 Nat [0] [1] [2] (by decide)⟩
